import Mathlib

/-!
Verification of the modbus-cli read path against its specification.

The embedding follows src/main.rs. Machine integers (u8, u16) are modelled
as Nat; where the Rust arithmetic can overflow or underflow (checked in
debug builds, aborting the process), the model returns Option Nat with
none standing for the abort. The serial device and the tokio_modbus
transaction are external effects; they are abstracted by an oracle
(SerialWorld) describing whether the open succeeds and what the one
transaction of the invocation would produce.
-/

set_option maxRecDepth 8000
set_option linter.unusedVariables false

namespace ModbusCli

/-! ## Line-parameter parsing (src/main.rs lines 151-182) -/

/-- Serial parity setting, mirroring tokio_serial Parity. -/
inductive Parity
  | None
  | Odd
  | Even
deriving DecidableEq

/-- Serial data-bits setting, mirroring tokio_serial DataBits. -/
inductive DataBits
  | Five
  | Six
  | Seven
  | Eight
deriving DecidableEq

/-- Serial stop-bits setting, mirroring tokio_serial StopBits. -/
inductive StopBits
  | One
  | Two
deriving DecidableEq

/-- ASCII lowercasing of a string, modelling the Rust str::to_lowercase
call on the parity argument (the accepted keywords are plain ASCII). -/
def strToLower (s : String) : String := String.mk (s.data.map Char.toLower)

/-- Parity parsing from src/main.rs lines 152-160: match on the lowercased
string, accepting exactly none, odd and even. -/
def parseParity (s : String) : Option Parity :=
  if strToLower s = "none" then some Parity.None
  else if strToLower s = "odd" then some Parity.Odd
  else if strToLower s = "even" then some Parity.Even
  else none

/-- Data-bits parsing from src/main.rs lines 163-172: accepts 5, 6, 7, 8. -/
def parseDataBits (n : Nat) : Option DataBits :=
  if n = 5 then some DataBits.Five
  else if n = 6 then some DataBits.Six
  else if n = 7 then some DataBits.Seven
  else if n = 8 then some DataBits.Eight
  else none

/-- Stop-bits parsing from src/main.rs lines 175-182: accepts 1, 2. -/
def parseStopBits (n : Nat) : Option StopBits :=
  if n = 1 then some StopBits.One
  else if n = 2 then some StopBits.Two
  else none

/-! ## The address-range computation (src/main.rs line 192)

The banner line prints `start_address + count - 1` evaluated in u16
arithmetic. In a debug build each step is checked: the addition aborts
when the sum exceeds 65535 and the subtraction aborts when the sum is 0.
Option.none models the abort. -/

/-- Checked u16 addition: some sum when it fits in 16 bits, none on the
overflow abort. -/
def checkedAddU16 (a b : Nat) : Option Nat :=
  if a + b ≤ 65535 then some (a + b) else none

/-- Checked u16 subtraction: some difference when non-negative, none on
the underflow abort. -/
def checkedSubU16 (a b : Nat) : Option Nat :=
  if b ≤ a then some (a - b) else none

/-- The value printed as the end of the address range on line 192:
start_address + count - 1, left to right, in checked u16 arithmetic. -/
def addrRangeEnd (start_address count : Nat) : Option Nat :=
  (checkedAddU16 start_address count).bind (fun s => checkedSubU16 s 1)

/-! ## Display layer (src/main.rs lines 271-360) -/

/-- The per-item rows of display_coil_data (src/main.rs lines 275-281):
item i is labelled with address start_address + i as u16; none when one
of the additions overflows 16 bits and the process aborts. -/
def coilRowsFrom (start_address : Nat) : Nat → List Bool → Option (List (Nat × Bool))
  | _, [] => some []
  | i, b :: rest =>
    match checkedAddU16 start_address i, coilRowsFrom start_address (i + 1) rest with
    | some a, some rs => some ((a, b) :: rs)
    | _, _ => none

/-- The address/value rows printed by display_coil_data for a decoded
coil list, starting at the requested address. -/
def display_coil_data (coils : List Bool) (start_address : Nat) : Option (List (Nat × Bool)) :=
  coilRowsFrom start_address 0 coils

/-- The per-item rows of display_register_data (src/main.rs lines 319-325):
item i is labelled with address start_address + i as u16. -/
def regRowsFrom (start_address : Nat) : Nat → List Nat → Option (List (Nat × Nat))
  | _, [] => some []
  | i, v :: rest =>
    match checkedAddU16 start_address i, regRowsFrom start_address (i + 1) rest with
    | some a, some rs => some ((a, v) :: rs)
    | _, _ => none

/-- The address/value rows printed by display_register_data for a decoded
register list, starting at the requested address. -/
def display_register_data (registers : List Nat) (start_address : Nat) :
    Option (List (Nat × Nat)) :=
  regRowsFrom start_address 0 registers

/-- The packed byte shown in the bit dump of display_coil_data
(src/main.rs lines 303-309): starting from 0, OR in 1 shifted left by j
for every index j of the chunk holding true. -/
def byte_val (chunk : List Bool) : Nat :=
  chunk.enum.foldl (fun acc p => if p.2 then acc ||| (1 <<< p.1) else acc) 0

/-- Helper characterisation of byte_val: the bits of the chunk placed at
positions starting from i. -/
def bitsFrom : Nat → List Bool → Nat
  | _, [] => 0
  | i, b :: rest => (if b then 1 <<< i else 0) ||| bitsFrom (i + 1) rest

/-! ## Frame codec, modelled from the spec

The CRC and framing logic of this program lives in the tokio_modbus
dependency, outside this repository; only its caller read_modbus_data is
in src. The definitions below are therefore modelled from the spec
(sections 4.2 and 6). -/

/-- Modelled from the spec: one bit step of the Modbus CRC16, polynomial
0xA001, shift right and conditionally XOR. -/
def crc16Step (crc : Nat) : Nat :=
  if crc % 2 = 1 then (crc / 2) ^^^ 0xA001 else crc / 2

/-- Modelled from the spec: iterate the CRC16 bit step. -/
def crc16Bits : Nat → Nat → Nat
  | 0, crc => crc
  | n + 1, crc => crc16Bits n (crc16Step crc)

/-- Modelled from the spec: absorb one byte into the CRC16 register and
run eight bit steps. -/
def crc16Byte (crc b : Nat) : Nat := crc16Bits 8 (crc ^^^ b)

/-- Modelled from the spec: Modbus CRC16 of a byte list, initial register
value 0xFFFF, polynomial 0xA001. -/
def crc16 (bytes : List Nat) : Nat := bytes.foldl crc16Byte 0xFFFF

/-- A Modbus read request: slave address, function code, 16-bit start
address and quantity (spec section 3). -/
structure ReadRequest where
  slave : Nat
  function : Nat
  start_address : Nat
  quantity : Nat
deriving DecidableEq

/-- Frame-level decode failures (spec section 4.2). -/
inductive FrameError
  | Truncated
  | ChecksumMismatch
  | SlaveMismatch
  | FunctionMismatch
  | PayloadLengthMismatch
deriving DecidableEq

/-- Decoded read response (spec section 3). -/
inductive ReadResponse
  | Bits (bits : List Bool)
  | Registers (regs : List Nat)
  | Exception (code : Nat)
deriving DecidableEq

/-- Modelled from the spec (section 4.2): serialize slave, function code,
start address big-endian, quantity big-endian, then append the CRC16 of
those bytes little-endian (low byte first). -/
def encode_request (req : ReadRequest) : List Nat :=
  let body := [req.slave, req.function,
    req.start_address / 256, req.start_address % 256,
    req.quantity / 256, req.quantity % 256]
  body ++ [crc16 body % 256, crc16 body / 256]

/-- Byte of a frame at an index, with 0 out of range. -/
def byteAt (bytes : List Nat) (i : Nat) : Nat := bytes.getD i 0

/-- Modelled from the spec (section 4.2, steps 1-7): validate length,
CRC (little-endian trailer), slave byte, exception flag and function
byte, then unpack the payload: bit functions little-bit-first into
exactly quantity booleans, register functions big-endian 16-bit words. -/
def decode_response (bytes : List Nat) (expected : ReadRequest) :
    Except FrameError ReadResponse :=
  if bytes.length < 4 then Except.error FrameError.Truncated
  else
    let body := bytes.take (bytes.length - 2)
    let crcRx := byteAt bytes (bytes.length - 2) + 256 * byteAt bytes (bytes.length - 1)
    if crc16 body ≠ crcRx then Except.error FrameError.ChecksumMismatch
    else if byteAt bytes 0 ≠ expected.slave then Except.error FrameError.SlaveMismatch
    else if byteAt bytes 1 = expected.function ||| 0x80 then
      Except.ok (ReadResponse.Exception (byteAt bytes 2))
    else if byteAt bytes 1 ≠ expected.function then Except.error FrameError.FunctionMismatch
    else
      let byteCount := byteAt bytes 2
      let payload := (bytes.drop 3).take (bytes.length - 5)
      if expected.function = 1 ∨ expected.function = 2 then
        if byteCount ≠ (expected.quantity + 7) / 8 ∨ payload.length ≠ byteCount then
          Except.error FrameError.PayloadLengthMismatch
        else
          Except.ok (ReadResponse.Bits
            ((List.range expected.quantity).map
              (fun i => Nat.testBit (byteAt payload (i / 8)) (i % 8))))
      else
        if byteCount ≠ 2 * expected.quantity ∨ payload.length ≠ byteCount then
          Except.error FrameError.PayloadLengthMismatch
        else
          Except.ok (ReadResponse.Registers
            ((List.range expected.quantity).map
              (fun i => 256 * byteAt payload (2 * i) + byteAt payload (2 * i + 1))))

/-! ## The read_modbus_data control flow (src/main.rs lines 139-269) -/

/-- Result of the one tokio_modbus transaction of an invocation, as seen
by read_modbus_data: err is the outer Err (transport or frame failure)
propagated by the question mark, exception is Ok(Err(e)) carrying a
device exception, ok is Ok(Ok(data)). -/
inductive TxOutcome (α : Type)
  | err
  | exception (code : Nat)
  | ok (data : α)
deriving DecidableEq

/-- Oracle for the external effects of one invocation: whether
SerialStream::open succeeds, and what the transaction would return for a
bit-type or register-type read. -/
structure SerialWorld where
  openOk : Bool
  txBits : TxOutcome (List Bool)
  txRegs : TxOutcome (List Nat)

/-- Observable outcome of one read_modbus_data invocation. The first
three cases print an error and return Ok(()); panicOverflow is the u16
abort in the address-range banner; openError and transportError are Err
returns propagated by the question mark; exceptionReported prints the
device exception and returns Ok(()); the success cases display data and
return Ok(()). -/
inductive ReadOutcome
  | invalidParity
  | invalidDataBits
  | invalidStopBits
  | panicOverflow
  | openError
  | unsupportedFunction
  | transportError
  | exceptionReported (code : Nat)
  | successBits (coils : List Bool)
  | successRegs (regs : List Nat)
deriving DecidableEq

/-- The function-code dispatch of read_modbus_data (src/main.rs lines
209-266): codes 1 and 2 run the bit-type transaction, 3 and 4 the
register-type transaction; on Ok(Ok(data)) the data is displayed, on
Ok(Err(e)) the exception is printed, on Err the error is returned by the
question mark; any other code prints an unsupported-code message and
returns Ok(()). -/
def dispatchRead (w : SerialWorld) (function_code : Nat) : ReadOutcome :=
  if function_code = 1 then
    match w.txBits with
    | TxOutcome.err => ReadOutcome.transportError
    | TxOutcome.exception c => ReadOutcome.exceptionReported c
    | TxOutcome.ok coils => ReadOutcome.successBits coils
  else if function_code = 2 then
    match w.txBits with
    | TxOutcome.err => ReadOutcome.transportError
    | TxOutcome.exception c => ReadOutcome.exceptionReported c
    | TxOutcome.ok inputs => ReadOutcome.successBits inputs
  else if function_code = 3 then
    match w.txRegs with
    | TxOutcome.err => ReadOutcome.transportError
    | TxOutcome.exception c => ReadOutcome.exceptionReported c
    | TxOutcome.ok registers => ReadOutcome.successRegs registers
  else if function_code = 4 then
    match w.txRegs with
    | TxOutcome.err => ReadOutcome.transportError
    | TxOutcome.exception c => ReadOutcome.exceptionReported c
    | TxOutcome.ok registers => ReadOutcome.successRegs registers
  else
    ReadOutcome.unsupportedFunction

/-- The control flow of read_modbus_data (src/main.rs lines 139-269):
parse parity, data bits, stop bits (each bad value prints and returns
Ok(())), print the banner whose address range may abort, open the port,
then dispatch on the function code. -/
def read_modbus_data (w : SerialWorld) (port_name : String) (baud_rate : Nat)
    (data_bits : Nat) (stop_bits : Nat) (parity_str : String) (slave_id : Nat)
    (start_address : Nat) (count : Nat) (function_code : Nat) (timeout_ms : Nat) :
    ReadOutcome :=
  match parseParity parity_str with
  | none => ReadOutcome.invalidParity
  | some _ =>
    match parseDataBits data_bits with
    | none => ReadOutcome.invalidDataBits
    | some _ =>
      match parseStopBits stop_bits with
      | none => ReadOutcome.invalidStopBits
      | some _ =>
        match addrRangeEnd start_address count with
        | none => ReadOutcome.panicOverflow
        | some _ =>
          match w.openOk with
          | false => ReadOutcome.openError
          | true => dispatchRead w function_code

/-- How the invocation terminates: returning the success value Ok(()),
returning an Err propagated by the question mark, or aborting. -/
inductive RetKind
  | okUnit
  | errReturn
  | abort
deriving DecidableEq

/-- Termination kind of each outcome, read off src/main.rs: every printed
rejection and the exception report end in Ok(()); the two question marks
end in Err; the u16 abort ends the process. -/
def retKind : ReadOutcome → RetKind
  | ReadOutcome.invalidParity => RetKind.okUnit
  | ReadOutcome.invalidDataBits => RetKind.okUnit
  | ReadOutcome.invalidStopBits => RetKind.okUnit
  | ReadOutcome.panicOverflow => RetKind.abort
  | ReadOutcome.openError => RetKind.errReturn
  | ReadOutcome.unsupportedFunction => RetKind.okUnit
  | ReadOutcome.transportError => RetKind.errReturn
  | ReadOutcome.exceptionReported _ => RetKind.okUnit
  | ReadOutcome.successBits _ => RetKind.okUnit
  | ReadOutcome.successRegs _ => RetKind.okUnit

/-- Whether the outcome implies request bytes were written to the serial
line: only the dispatched transaction touches the wire. -/
def touchesWire : ReadOutcome → Bool
  | ReadOutcome.transportError => true
  | ReadOutcome.exceptionReported _ => true
  | ReadOutcome.successBits _ => true
  | ReadOutcome.successRegs _ => true
  | _ => false

/-- Whether the outcome implies SerialStream::open was attempted. -/
def attemptsOpen : ReadOutcome → Bool
  | ReadOutcome.invalidParity => false
  | ReadOutcome.invalidDataBits => false
  | ReadOutcome.invalidStopBits => false
  | ReadOutcome.panicOverflow => false
  | _ => true

/-! ## Helper lemmas -/

/-- When every local check passes and the port opens, the invocation
reduces to the function-code dispatch. -/
theorem read_modbus_data_eq_dispatch (w : SerialWorld) (pn : String) (br db sb : Nat)
    (ps : String) (sl sa c fc tm : Nat) (p : Parity) (d : DataBits) (s : StopBits)
    (e : Nat) (hp : parseParity ps = some p) (hd : parseDataBits db = some d)
    (hs : parseStopBits sb = some s) (hr : addrRangeEnd sa c = some e)
    (ho : w.openOk = true) :
    read_modbus_data w pn br db sb ps sl sa c fc tm = dispatchRead w fc := by
  unfold read_modbus_data
  rw [hp, hd, hs, hr, ho]

/-- The dispatch for a function code outside 1-4 is the unsupported-code
rejection. -/
theorem dispatchRead_unsupported (w : SerialWorld) (fc : Nat)
    (h1 : fc ≠ 1) (h2 : fc ≠ 2) (h3 : fc ≠ 3) (h4 : fc ≠ 4) :
    dispatchRead w fc = ReadOutcome.unsupportedFunction := by
  simp [dispatchRead, h1, h2, h3, h4]

/-- Every outcome of the function-code dispatch either touches the wire
or is the unsupported-code rejection. -/
theorem dispatchRead_touches_or_unsupported (w : SerialWorld) (fc : Nat) :
    touchesWire (dispatchRead w fc) = true ∨
      dispatchRead w fc = ReadOutcome.unsupportedFunction := by
  unfold dispatchRead
  by_cases h1 : fc = 1 <;> by_cases h2 : fc = 2 <;> by_cases h3 : fc = 3 <;>
    by_cases h4 : fc = 4 <;>
    simp [h1, h2, h3, h4] <;>
    cases w.txBits <;> cases w.txRegs <;> simp [touchesWire]

/-! ## Claim theorems -/

/-- Claim C5: the request slave 1, function 3, start address 0,
quantity 2 encodes to 01 03 00 00 00 02 followed by its CRC16
(polynomial 0xA001, initial value 0xFFFF, value 0x0BC4, appended
little-endian as C4 0B), and the device reply 01 03 04 00 0A 00 14
followed by its valid CRC (DA 3E) decodes to Registers [10, 20]. -/
theorem C5_holding_register_scenario :
    encode_request { slave := 1, function := 3, start_address := 0, quantity := 2 } =
      [0x01, 0x03, 0x00, 0x00, 0x00, 0x02, 0xC4, 0x0B] ∧
    crc16 [0x01, 0x03, 0x00, 0x00, 0x00, 0x02] = 0x0BC4 ∧
    decode_response [0x01, 0x03, 0x04, 0x00, 0x0A, 0x00, 0x14, 0xDA, 0x3E]
        { slave := 1, function := 3, start_address := 0, quantity := 2 } =
      Except.ok (ReadResponse.Registers [10, 20]) := by
  refine ⟨by decide, by decide, by rfl⟩

/-- Claim C6: for the request slave 1, function 1 (read coils), start
address 0, quantity 3, the valid device reply with packed-bit payload
byte 0x05 decodes to exactly Bits [true, false, true]; the bits are the
little-bit-first unpacking of 0x05 at positions 0, 1, 2, and the five
padding bits of the byte are ignored. -/
theorem C6_coil_scenario :
    decode_response [0x01, 0x01, 0x01, 0x05, 0x91, 0x8B]
        { slave := 1, function := 1, start_address := 0, quantity := 3 } =
      Except.ok (ReadResponse.Bits ((List.range 3).map (Nat.testBit 0x05))) ∧
    (List.range 3).map (Nat.testBit 0x05) = [true, false, true] := by
  refine ⟨by rfl, by decide⟩

/-- Claim C8 (corrected), counterexample to the stated boundary: with
start_address 5 and count 0 the u16 computation start_address + count - 1
does not abort but evaluates to 4, and with start_address 65535 and
count 1 (so start_address + count = 65536, within the bound the claim
states) the addition overflows and the program aborts. -/
theorem C8_counterexample :
    addrRangeEnd 5 0 = some 4 ∧ addrRangeEnd 65535 1 = none := by
  refine ⟨by decide, by decide⟩

/-- Claim C8 (amended): the banner computation start_address + count - 1
is evaluated in checked u16 arithmetic and is well-defined exactly when
1 ≤ start_address + count ≤ 65535, in which case it prints
start_address + count - 1; outside that range the arithmetic under- or
overflows and the invocation aborts (panicOverflow) instead of producing
a typed error outcome. -/
theorem C8_amended_range_arithmetic (start_address count : Nat) :
    (addrRangeEnd start_address count =
      if 1 ≤ start_address + count ∧ start_address + count ≤ 65535
      then some (start_address + count - 1) else none) ∧
    (addrRangeEnd start_address count = none →
      ∀ (w : SerialWorld) (pn : String) (br sl fc tm : Nat),
        read_modbus_data w pn br 8 1 "none" sl start_address count fc tm =
          ReadOutcome.panicOverflow) := by
  constructor
  · simp only [addrRangeEnd, checkedAddU16, checkedSubU16]
    by_cases h1 : start_address + count ≤ 65535 <;>
      by_cases h2 : 1 ≤ start_address + count <;>
      simp [h1, h2, Option.bind]
  · intro hnone w pn br sl fc tm
    unfold read_modbus_data
    rw [hnone]
    rfl

/-- Witness for the amended claim C8 at the two concrete aborting
inputs: start 0 count 0 underflows and start 65535 count 1 overflows,
and in both cases the invocation ends in the abort outcome. -/
theorem C8_amended_range_arithmetic_witness :
    read_modbus_data ⟨true, TxOutcome.ok [], TxOutcome.ok []⟩
        "/dev/ttyUSB0" 9600 8 1 "none" 1 0 0 3 1000 = ReadOutcome.panicOverflow ∧
    read_modbus_data ⟨true, TxOutcome.ok [], TxOutcome.ok []⟩
        "/dev/ttyUSB0" 9600 8 1 "none" 1 65535 1 3 1000 = ReadOutcome.panicOverflow :=
  ⟨(C8_amended_range_arithmetic 0 0).2 (by decide) ⟨true, TxOutcome.ok [], TxOutcome.ok []⟩
      "/dev/ttyUSB0" 9600 1 3 1000,
   (C8_amended_range_arithmetic 65535 1).2 (by decide) ⟨true, TxOutcome.ok [], TxOutcome.ok []⟩
      "/dev/ttyUSB0" 9600 1 3 1000⟩

/-- Claim C10: parity parsing is case-insensitive: a string is accepted
exactly when its lowercase form is none, odd or even, and it maps to the
corresponding parity; every other string is rejected. -/
theorem C10_parity_case_insensitive (s : String) :
    (parseParity s = some Parity.None ↔ strToLower s = "none") ∧
    (parseParity s = some Parity.Odd ↔ strToLower s = "odd") ∧
    (parseParity s = some Parity.Even ↔ strToLower s = "even") ∧
    ((parseParity s).isSome ↔
      (strToLower s = "none" ∨ strToLower s = "odd" ∨ strToLower s = "even")) := by
  by_cases h1 : strToLower s = "none" <;> by_cases h2 : strToLower s = "odd" <;>
    by_cases h3 : strToLower s = "even" <;>
    simp_all [parseParity]

/-- Claim C1 (corrected), counterexample: a holding-register read with
quantity 126 (above the 125 ceiling the claim states) does not fail
validation; the request is dispatched and bytes reach the wire, here
completing as a successful register read. -/
theorem C1_counterexample :
    read_modbus_data ⟨true, TxOutcome.ok [], TxOutcome.ok (List.replicate 126 0)⟩
        "/dev/ttyUSB0" 9600 8 1 "none" 1 0 126 3 1000 =
      ReadOutcome.successRegs (List.replicate 126 0) ∧
    touchesWire (ReadOutcome.successRegs (List.replicate 126 0)) = true :=
  ⟨rfl, rfl⟩

/-- Claim C1 (amended): read_modbus_data performs no quantity or ceiling
validation for any of the four read functions: whenever the line
parameters parse, the banner arithmetic does not abort and the port
opens, the read is dispatched to the transport for every quantity — 0,
quantities above the 125 register-type ceiling (codes 3 and 4) and
quantities above the 2000 bit-type ceiling (codes 1 and 2) included; no
ValidationError outcome exists. -/
theorem C1_amended_no_validation (w : SerialWorld) (pn ps : String)
    (br db sb sl sa c fc tm : Nat) (p : Parity) (d : DataBits) (s : StopBits)
    (e : Nat) (hfc : fc = 1 ∨ fc = 2 ∨ fc = 3 ∨ fc = 4)
    (hp : parseParity ps = some p) (hd : parseDataBits db = some d)
    (hs : parseStopBits sb = some s) (hr : addrRangeEnd sa c = some e)
    (ho : w.openOk = true) :
    touchesWire (read_modbus_data w pn br db sb ps sl sa c fc tm) = true := by
  rw [read_modbus_data_eq_dispatch w pn br db sb ps sl sa c fc tm p d s e
    hp hd hs hr ho]
  unfold dispatchRead
  rcases hfc with h | h | h | h <;> subst h <;>
    cases w.txBits <;> cases w.txRegs <;> rfl

/-- Witness for the amended claim C1: quantity 126 on a holding-register
read (ceiling 125) and quantity 2001 on a coil read (ceiling 2000) both
reach the wire. -/
theorem C1_amended_no_validation_witness :
    touchesWire (read_modbus_data ⟨true, TxOutcome.ok [], TxOutcome.ok []⟩
      "/dev/ttyUSB0" 9600 8 1 "none" 1 0 126 3 1000) = true ∧
    touchesWire (read_modbus_data ⟨true, TxOutcome.ok [], TxOutcome.ok []⟩
      "/dev/ttyUSB0" 9600 8 1 "none" 1 0 2001 1 1000) = true :=
  ⟨C1_amended_no_validation ⟨true, TxOutcome.ok [], TxOutcome.ok []⟩ "/dev/ttyUSB0"
      "none" 9600 8 1 1 0 126 3 1000 Parity.None DataBits.Eight StopBits.One 125
      (Or.inr (Or.inr (Or.inl rfl))) rfl rfl rfl (by decide) rfl,
   C1_amended_no_validation ⟨true, TxOutcome.ok [], TxOutcome.ok []⟩ "/dev/ttyUSB0"
      "none" 9600 8 1 1 0 2001 1 1000 Parity.None DataBits.Eight StopBits.One 2000
      (Or.inl rfl) rfl rfl rfl (by decide) rfl⟩

/-- Claim C2 (corrected), counterexample: function code 5 is rejected,
but the rejection is not a distinct failure: the invocation returns the
success value Ok(()). -/
theorem C2_counterexample :
    read_modbus_data ⟨true, TxOutcome.ok [], TxOutcome.ok []⟩
        "/dev/ttyUSB0" 9600 8 1 "none" 1 0 1 5 1000 =
      ReadOutcome.unsupportedFunction ∧
    retKind ReadOutcome.unsupportedFunction = RetKind.okUnit :=
  ⟨rfl, rfl⟩

/-- Claim C2 (amended): for every function code outside 1-4 nothing is
ever written to the transport, and when the dispatch point is reached the
invocation prints an unsupported-code message and terminates with the
success value Ok(()), not a distinct validation-error outcome. -/
theorem C2_amended_unsupported_code (w : SerialWorld) (pn ps : String)
    (br db sb sl sa c fc tm : Nat)
    (h1 : fc ≠ 1) (h2 : fc ≠ 2) (h3 : fc ≠ 3) (h4 : fc ≠ 4) :
    touchesWire (read_modbus_data w pn br db sb ps sl sa c fc tm) = false ∧
    (∀ (p : Parity) (d : DataBits) (s : StopBits) (e : Nat),
      parseParity ps = some p → parseDataBits db = some d →
      parseStopBits sb = some s → addrRangeEnd sa c = some e → w.openOk = true →
      read_modbus_data w pn br db sb ps sl sa c fc tm =
        ReadOutcome.unsupportedFunction ∧
      retKind ReadOutcome.unsupportedFunction = RetKind.okUnit) := by
  constructor
  · unfold read_modbus_data
    have hd := dispatchRead_unsupported w fc h1 h2 h3 h4
    cases hpp : parseParity ps
    · rfl
    · cases hdb : parseDataBits db
      · rfl
      · cases hsb : parseStopBits sb
        · rfl
        · cases hre : addrRangeEnd sa c
          · rfl
          · cases hoo : w.openOk
            · rfl
            · rw [hd]; rfl
  · intro p d s e hp hdb hs hr ho
    rw [read_modbus_data_eq_dispatch w pn br db sb ps sl sa c fc tm p d s e
      hp hdb hs hr ho]
    exact ⟨dispatchRead_unsupported w fc h1 h2 h3 h4, rfl⟩

/-- Witness for the amended claim C2 at function code 5 with valid line
parameters. -/
theorem C2_amended_unsupported_code_witness :
    touchesWire (read_modbus_data ⟨true, TxOutcome.ok [], TxOutcome.ok []⟩
      "/dev/ttyUSB0" 9600 8 1 "none" 1 0 1 5 1000) = false ∧
    read_modbus_data ⟨true, TxOutcome.ok [], TxOutcome.ok []⟩
        "/dev/ttyUSB0" 9600 8 1 "none" 1 0 1 5 1000 =
      ReadOutcome.unsupportedFunction :=
  ⟨(C2_amended_unsupported_code ⟨true, TxOutcome.ok [], TxOutcome.ok []⟩
      "/dev/ttyUSB0" "none" 9600 8 1 1 0 1 5 1000
      (by decide) (by decide) (by decide) (by decide)).1,
   ((C2_amended_unsupported_code ⟨true, TxOutcome.ok [], TxOutcome.ok []⟩
      "/dev/ttyUSB0" "none" 9600 8 1 1 0 1 5 1000
      (by decide) (by decide) (by decide) (by decide)).2 Parity.None
      DataBits.Eight StopBits.One 0 rfl rfl rfl (by decide) rfl).1⟩

/-- Claim C3 (code bug): a malformed parity string, data-bits value or
stop-bits value is rejected before the device is opened, but the
invocation terminates with the success value Ok(()) after printing the
message, not with a failure signal as the spec requires. -/
theorem C3_invalid_line_params_return_ok (w : SerialWorld) (pn : String)
    (br sl sa c fc tm : Nat) :
    (read_modbus_data w pn br 8 1 "invalid" sl sa c fc tm =
        ReadOutcome.invalidParity ∧
      retKind ReadOutcome.invalidParity = RetKind.okUnit ∧
      attemptsOpen ReadOutcome.invalidParity = false) ∧
    (read_modbus_data w pn br 9 1 "none" sl sa c fc tm =
        ReadOutcome.invalidDataBits ∧
      retKind ReadOutcome.invalidDataBits = RetKind.okUnit ∧
      attemptsOpen ReadOutcome.invalidDataBits = false) ∧
    (read_modbus_data w pn br 8 3 "none" sl sa c fc tm =
        ReadOutcome.invalidStopBits ∧
      retKind ReadOutcome.invalidStopBits = RetKind.okUnit ∧
      attemptsOpen ReadOutcome.invalidStopBits = false) :=
  ⟨⟨rfl, rfl, rfl⟩, ⟨rfl, rfl, rfl⟩, ⟨rfl, rfl, rfl⟩⟩

/-- Claim C4 (corrected), counterexample: a device exception response
(code 2, illegal data address) is reported by handle_modbus_error and
then absorbed: the invocation returns the success value Ok(()), so the
exception is not surfaced to the caller as a distinct outcome. -/
theorem C4_counterexample :
    read_modbus_data ⟨true, TxOutcome.ok [], TxOutcome.exception 2⟩
        "/dev/ttyUSB0" 9600 8 1 "none" 1 0 1 3 1000 =
      ReadOutcome.exceptionReported 2 ∧
    retKind (ReadOutcome.exceptionReported 2) = RetKind.okUnit :=
  ⟨rfl, rfl⟩

/-- Claim C4 (amended): the error outcomes of a read invocation split as
follows, for every supported function code 1-4 and all parameters: a
transport or frame failure (the outer Err of the transaction) is
surfaced to the caller through the Err return, while a device exception
response is printed by handle_modbus_error and then absorbed after
reporting — the invocation returns the success value Ok(()) — and the
validation rejections of a bad parity, data-bits or stop-bits value
likewise end in Ok(()); so neither a ProtocolException nor a validation
failure is distinguishable from success in the returned value. -/
theorem C4_amended_error_surfacing (w : SerialWorld) (pn ps : String)
    (br db sb sl sa c fc tm : Nat) :
    (parseParity ps = none →
      read_modbus_data w pn br db sb ps sl sa c fc tm = ReadOutcome.invalidParity ∧
      retKind ReadOutcome.invalidParity = RetKind.okUnit) ∧
    (∀ (p : Parity), parseParity ps = some p → parseDataBits db = none →
      read_modbus_data w pn br db sb ps sl sa c fc tm = ReadOutcome.invalidDataBits ∧
      retKind ReadOutcome.invalidDataBits = RetKind.okUnit) ∧
    (∀ (p : Parity) (d : DataBits), parseParity ps = some p →
      parseDataBits db = some d → parseStopBits sb = none →
      read_modbus_data w pn br db sb ps sl sa c fc tm = ReadOutcome.invalidStopBits ∧
      retKind ReadOutcome.invalidStopBits = RetKind.okUnit) ∧
    (∀ (p : Parity) (d : DataBits) (s : StopBits) (e : Nat),
      parseParity ps = some p → parseDataBits db = some d →
      parseStopBits sb = some s → addrRangeEnd sa c = some e → w.openOk = true →
      ((fc = 1 ∨ fc = 2 →
        (w.txBits = TxOutcome.err →
          read_modbus_data w pn br db sb ps sl sa c fc tm =
            ReadOutcome.transportError ∧
          retKind ReadOutcome.transportError = RetKind.errReturn) ∧
        (∀ (code : Nat), w.txBits = TxOutcome.exception code →
          read_modbus_data w pn br db sb ps sl sa c fc tm =
            ReadOutcome.exceptionReported code ∧
          retKind (ReadOutcome.exceptionReported code) = RetKind.okUnit)) ∧
       (fc = 3 ∨ fc = 4 →
        (w.txRegs = TxOutcome.err →
          read_modbus_data w pn br db sb ps sl sa c fc tm =
            ReadOutcome.transportError ∧
          retKind ReadOutcome.transportError = RetKind.errReturn) ∧
        (∀ (code : Nat), w.txRegs = TxOutcome.exception code →
          read_modbus_data w pn br db sb ps sl sa c fc tm =
            ReadOutcome.exceptionReported code ∧
          retKind (ReadOutcome.exceptionReported code) = RetKind.okUnit)))) := by
  refine ⟨?_, ?_, ?_, ?_⟩
  · intro hps
    unfold read_modbus_data
    rw [hps]
    exact ⟨rfl, rfl⟩
  · intro p hp hdb
    unfold read_modbus_data
    rw [hp, hdb]
    exact ⟨rfl, rfl⟩
  · intro p d hp hdb hsb
    unfold read_modbus_data
    rw [hp, hdb, hsb]
    exact ⟨rfl, rfl⟩
  · intro p d s e hp hdb hsb hr ho
    have hdisp := read_modbus_data_eq_dispatch w pn br db sb ps sl sa c fc tm
      p d s e hp hdb hsb hr ho
    constructor
    · intro hfc
      constructor
      · intro htx
        rcases hfc with h | h <;> subst h <;> rw [hdisp] <;> unfold dispatchRead <;>
          rw [htx] <;> exact ⟨rfl, rfl⟩
      · intro code htx
        rcases hfc with h | h <;> subst h <;> rw [hdisp] <;> unfold dispatchRead <;>
          rw [htx] <;> exact ⟨rfl, rfl⟩
    · intro hfc
      constructor
      · intro htx
        rcases hfc with h | h <;> subst h <;> rw [hdisp] <;> unfold dispatchRead <;>
          rw [htx] <;> exact ⟨rfl, rfl⟩
      · intro code htx
        rcases hfc with h | h <;> subst h <;> rw [hdisp] <;> unfold dispatchRead <;>
          rw [htx] <;> exact ⟨rfl, rfl⟩

/-- Witness for the amended claim C4: a transport failure on a coil read
surfaces as the Err return, a device exception on an input-register read
ends in the success value Ok(()), and a bad parity string ends in the
success value Ok(()). -/
theorem C4_amended_error_surfacing_witness :
    (read_modbus_data ⟨true, TxOutcome.err, TxOutcome.ok []⟩
        "/dev/ttyUSB0" 9600 8 1 "none" 1 0 1 1 1000 =
      ReadOutcome.transportError ∧
      retKind ReadOutcome.transportError = RetKind.errReturn) ∧
    (read_modbus_data ⟨true, TxOutcome.ok [], TxOutcome.exception 2⟩
        "/dev/ttyUSB0" 9600 8 1 "none" 1 0 1 4 1000 =
      ReadOutcome.exceptionReported 2 ∧
      retKind (ReadOutcome.exceptionReported 2) = RetKind.okUnit) ∧
    (read_modbus_data ⟨true, TxOutcome.ok [], TxOutcome.ok []⟩
        "/dev/ttyUSB0" 9600 8 1 "bad" 1 0 1 3 1000 =
      ReadOutcome.invalidParity ∧
      retKind ReadOutcome.invalidParity = RetKind.okUnit) :=
  ⟨(((C4_amended_error_surfacing ⟨true, TxOutcome.err, TxOutcome.ok []⟩
        "/dev/ttyUSB0" "none" 9600 8 1 1 0 1 1 1000).2.2.2 Parity.None
        DataBits.Eight StopBits.One 0 rfl rfl rfl (by decide) rfl).1
      (Or.inl rfl)).1 rfl,
   (((C4_amended_error_surfacing ⟨true, TxOutcome.ok [], TxOutcome.exception 2⟩
        "/dev/ttyUSB0" "none" 9600 8 1 1 0 1 4 1000).2.2.2 Parity.None
        DataBits.Eight StopBits.One 0 rfl rfl rfl (by decide) rfl).2
      (Or.inr rfl)).2 2 rfl,
   (C4_amended_error_surfacing ⟨true, TxOutcome.ok [], TxOutcome.ok []⟩
      "/dev/ttyUSB0" "bad" 9600 8 1 1 0 1 3 1000).1 rfl⟩

/-- The per-item rows of the coil display enumerate the items from the
given index, labelling item i with start + i, provided no u16 address
overflows. -/
theorem coilRowsFrom_eq_enumFrom (l : List Bool) : ∀ (s i : Nat),
    s + i + l.length ≤ 65536 →
    coilRowsFrom s i l = some ((List.enumFrom i l).map (fun p => (s + p.1, p.2))) := by
  induction l with
  | nil => intro s i h; rfl
  | cons b rest ih =>
    intro s i h
    have h1 : s + i ≤ 65535 := by simp only [List.length_cons] at h; omega
    have h2 : s + (i + 1) + rest.length ≤ 65536 := by
      simp only [List.length_cons] at h; omega
    simp [coilRowsFrom, checkedAddU16, h1, ih s (i + 1) h2, List.enumFrom_cons]

/-- The per-item rows of the register display enumerate the items from
the given index, labelling item i with start + i, provided no u16
address overflows. -/
theorem regRowsFrom_eq_enumFrom (l : List Nat) : ∀ (s i : Nat),
    s + i + l.length ≤ 65536 →
    regRowsFrom s i l = some ((List.enumFrom i l).map (fun p => (s + p.1, p.2))) := by
  induction l with
  | nil => intro s i h; rfl
  | cons v rest ih =>
    intro s i h
    have h1 : s + i ≤ 65535 := by simp only [List.length_cons] at h; omega
    have h2 : s + (i + 1) + rest.length ≤ 65536 := by
      simp only [List.length_cons] at h; omega
    simp [regRowsFrom, checkedAddU16, h1, ih s (i + 1) h2, List.enumFrom_cons]

/-- Claim C7: for every successfully decoded response whose labels fit
the 16-bit address space, the display layer labels the i-th item with
address start_address + i, for coils and for registers alike, and the
display order is the request order. -/
theorem C7_display_labels_addresses (coils : List Bool) (registers : List Nat)
    (start_address : Nat) :
    (start_address + coils.length ≤ 65536 →
      display_coil_data coils start_address =
        some (coils.enum.map (fun p => (start_address + p.1, p.2)))) ∧
    (start_address + registers.length ≤ 65536 →
      display_register_data registers start_address =
        some (registers.enum.map (fun p => (start_address + p.1, p.2)))) := by
  constructor
  · intro h
    exact coilRowsFrom_eq_enumFrom coils start_address 0 (by omega)
  · intro h
    exact regRowsFrom_eq_enumFrom registers start_address 0 (by omega)

/-- Witness for claim C7 on concrete data: three coils from address 5
and two registers from address 100 are labelled consecutively. -/
theorem C7_display_labels_addresses_witness :
    display_coil_data [true, false, true] 5 = some [(5, true), (6, false), (7, true)] ∧
    display_register_data [10, 20] 100 = some [(100, 10), (101, 20)] :=
  ⟨((C7_display_labels_addresses [true, false, true] [] 5).1 (by decide)).trans
      (by decide),
   ((C7_display_labels_addresses [] [10, 20] 100).2 (by decide)).trans (by decide)⟩

/-- The fold of the bit dump equals OR-ing the chunk bits placed from
the start index into the accumulator. -/
theorem byte_val_enumFrom_foldl (l : List Bool) : ∀ (i acc : Nat),
    (List.enumFrom i l).foldl (fun acc p => if p.2 then acc ||| (1 <<< p.1) else acc)
        acc =
      acc ||| bitsFrom i l := by
  induction l with
  | nil => intro i acc; simp [bitsFrom]
  | cons b rest ih =>
    intro i acc
    cases b
    · simp [List.enumFrom_cons, bitsFrom, ih (i + 1) acc]
    · simp [List.enumFrom_cons, bitsFrom, ih (i + 1) (acc ||| (1 <<< i)), Nat.or_assoc]

/-- The displayed chunk byte is the chunk bits placed from position 0. -/
theorem byte_val_eq_bitsFrom (chunk : List Bool) : byte_val chunk = bitsFrom 0 chunk := by
  have h := byte_val_enumFrom_foldl chunk 0 0
  calc byte_val chunk = 0 ||| bitsFrom 0 chunk := h
    _ = bitsFrom 0 chunk := Nat.zero_or _

/-- Bits below the placement index are clear. -/
theorem bitsFrom_testBit_lt (l : List Bool) : ∀ (i k : Nat), k < i →
    (bitsFrom i l).testBit k = false := by
  induction l with
  | nil => intro i k h; simp [bitsFrom]
  | cons b rest ih =>
    intro i k h
    simp only [bitsFrom, Nat.testBit_lor]
    rw [ih (i + 1) k (by omega)]
    cases b
    · simp
    · simp [Nat.shiftLeft_eq, Nat.testBit_two_pow_of_ne (by omega : i ≠ k)]

/-- Bit i + j of the placed bits is the j-th boolean of the list (false
past the end). -/
theorem bitsFrom_testBit (l : List Bool) : ∀ (i j : Nat),
    (bitsFrom i l).testBit (i + j) = l.getD j false := by
  induction l with
  | nil => intro i j; simp [bitsFrom]
  | cons b rest ih =>
    intro i j
    cases j with
    | zero =>
      simp only [bitsFrom, Nat.testBit_lor, Nat.add_zero, List.getD_cons_zero]
      rw [bitsFrom_testBit_lt rest (i + 1) i (by omega)]
      cases b
      · simp
      · simp [Nat.shiftLeft_eq, Nat.testBit_two_pow_self]
    | succ j =>
      have hadd : i + (j + 1) = (i + 1) + j := by omega
      simp only [bitsFrom, Nat.testBit_lor, hadd, ih (i + 1) j, List.getD_cons_succ]
      cases b
      · simp
      · simp [Nat.shiftLeft_eq, Nat.testBit_two_pow_of_ne (by omega : i ≠ i + 1 + j)]

/-- The placed bits are bounded by the power of two past the last
position. -/
theorem bitsFrom_lt (l : List Bool) : ∀ (i : Nat), bitsFrom i l < 2 ^ (i + l.length) := by
  induction l with
  | nil =>
    intro i
    simp only [bitsFrom, Nat.add_zero]
    exact Nat.two_pow_pos i
  | cons b rest ih =>
    intro i
    have hr := ih (i + 1)
    have he : (i + 1) + rest.length = i + (rest.length + 1) := by omega
    rw [he] at hr
    simp only [bitsFrom, List.length_cons]
    apply Nat.or_lt_two_pow _ hr
    cases b
    · exact Nat.two_pow_pos (i + (rest.length + 1))
    · simp only [if_true]
      calc 1 <<< i = 2 ^ i := by simp [Nat.shiftLeft_eq]
        _ < 2 ^ (i + (rest.length + 1)) :=
          Nat.pow_lt_pow_right (by norm_num) (by omega)

/-- Claim C9: for every chunk of at most eight booleans, the byte shown
in the coil bit dump fits in one byte, has bit j set exactly when the
j-th boolean of the chunk is true (LSB-first packing), has every bit at
or past the chunk length clear, and unpacking it little-bit-first
recovers exactly the chunk in order. -/
theorem C9_bit_dump_roundtrip (chunk : List Bool) (hlen : chunk.length ≤ 8) :
    byte_val chunk < 256 ∧
    (∀ (j : Fin chunk.length), (byte_val chunk).testBit j.1 = chunk.get j) ∧
    (∀ (j : Nat), chunk.length ≤ j → (byte_val chunk).testBit j = false) ∧
    List.ofFn (fun j : Fin chunk.length => (byte_val chunk).testBit j.1) = chunk := by
  have hb := byte_val_eq_bitsFrom chunk
  have hget : ∀ (j : Fin chunk.length), (byte_val chunk).testBit j.1 = chunk.get j := by
    intro j
    rw [hb]
    have h0 := bitsFrom_testBit chunk 0 j.1
    rw [Nat.zero_add] at h0
    rw [h0]
    exact (List.getD_eq_getElem chunk false j.2).trans (List.get_eq_getElem chunk j).symm
  refine ⟨?_, hget, ?_, ?_⟩
  · rw [hb]
    calc bitsFrom 0 chunk < 2 ^ (0 + chunk.length) := bitsFrom_lt chunk 0
      _ ≤ 2 ^ 8 := Nat.pow_le_pow_right (by norm_num) (by omega)
  · intro j hj
    rw [hb]
    have h0 := bitsFrom_testBit chunk 0 j
    rw [Nat.zero_add] at h0
    rw [h0]
    simp [List.getD_eq_getElem?_getD, List.getElem?_eq_none hj]
  · have hfun : (fun j : Fin chunk.length => (byte_val chunk).testBit j.1) = chunk.get :=
      funext hget
    rw [hfun, List.ofFn_get]

/-- Witness for claim C9 on the chunk true, false, true: the byte is
0x05 and unpacking it recovers the chunk. -/
theorem C9_bit_dump_roundtrip_witness :
    byte_val [true, false, true] < 256 ∧
    List.ofFn (fun j : Fin ([true, false, true] : List Bool).length =>
      (byte_val [true, false, true]).testBit j.1) = [true, false, true] ∧
    byte_val [true, false, true] = 5 :=
  ⟨(C9_bit_dump_roundtrip [true, false, true] (by decide)).1,
   (C9_bit_dump_roundtrip [true, false, true] (by decide)).2.2.2,
   by decide⟩

end ModbusCli
